import Mathlib

/-!
Shallow embedding of the transactional-outbox / at-least-once event delivery
subsystem of the Fintegrate repository:

* `services/customer_service/models.py` — `CustomerEvent`, `ConsumerEventReceipt`, `Consumer`
* `services/customer_service/crud.py` — `create_customer_event`
* `services/customer_service/routes.py` — `create_customer` (outbox insert + publish),
  `resend_pending_events`, `confirm_event_delivery`, `redeliver_pending_events`
* `services/shared/event_publisher.py` — `EventPublisher.publish_event`
* `services/customer_service/constants.py` — publish failure-reason constants

Timestamps are modelled as `Int` seconds; UUIDs as `Nat` identifiers; JSON payloads
as association lists of strings.  Broker interaction is modelled by an outcome
oracle: each publish attempt either succeeds, returns `False`, or raises (the
raised case also covers exceptions thrown before the publish call inside the
sweep loop bodies, e.g. malformed payload extraction).
-/

namespace Fintegrate

/-- constants.py line 7. -/
def PUBLISH_ERROR_RABBITMQ_FALSE : String := "RabbitMQ publish returned False"

/-- constants.py line 8. -/
def PUBLISH_ERROR_PUBLISHER_NONE : String := "EventPublisher connection is None"

/-- models.py `CustomerEvent` (outbox row).  Column defaults:
`publish_status="published"`, `publish_try_count=1`, `deliver_status="pending"`,
`deliver_try_count=0`, all timestamps/reasons nullable. -/
structure CustomerEvent where
  event_id : Nat
  customer_id : Nat
  consumer_id : Nat
  event_type : String
  source_service : Option String
  payload_json : List (String × String)
  metadata_json : Option (List (String × String))
  created_at : Int
  publish_status : String
  published_at : Option Int
  publish_try_count : Nat
  publish_last_tried_at : Option Int
  publish_failure_reason : Option String
  deliver_status : String
  delivered_at : Option Int
  deliver_try_count : Nat
  deliver_last_tried_at : Option Int
  deliver_failure_reason : Option String
  deriving Repr, DecidableEq

/-- models.py `ConsumerEventReceipt`. -/
structure ConsumerEventReceipt where
  receipt_id : Nat
  consumer_id : Option Nat
  event_id : Nat
  customer_id : Nat
  event_type : String
  received_at : Int
  processing_status : String
  processing_failure_reason : Option String
  deriving Repr, DecidableEq

/-- models.py `Consumer` (the fields the outbox subsystem reads). -/
structure Consumer where
  consumer_id : Nat
  name : String
  deriving Repr, DecidableEq

/-- The relational state touched by the outbox subsystem. -/
structure Database where
  events : List CustomerEvent
  receipts : List ConsumerEventReceipt
  consumers : List Consumer
  deriving Repr, DecidableEq

/-- Outcome of one `publisher.publish_event(...)` call as observed by a caller:
the call returned `True`, returned `False`, or an exception escaped into the
caller's `try` block (message already formatted from the exception type name
and text, as the routes do). -/
inductive PublishOutcome where
  | ok
  | returnedFalse
  | raised (msg : String)
  deriving Repr, DecidableEq

/-- The failure reason a sweep loop body records for a non-`ok` outcome
(routes.py lines 917-921 and 1225-1229). -/
def outcomeFailureReason : PublishOutcome → Option String
  | .ok => none
  | .returnedFalse => some PUBLISH_ERROR_RABBITMQ_FALSE
  | .raised msg => some msg

/-! ## EventPublisher.publish_event (event_publisher.py lines 47-169) -/

/-- The broker-touching steps of `publish_event`, in source order:
fresh connection, exchange declare, DLQ declare, main queue declare,
main queue bind, DLQ bind, `basic_publish`. -/
inductive BrokerStep where
  | connect
  | exchangeDeclare
  | dlqDeclare
  | queueDeclare
  | bindQueue
  | bindDlq
  | basicPublish
  deriving Repr, DecidableEq

/-- A broker behaviour: for each step, `some msg` means the step raises an
exception with that message, `none` means it succeeds. -/
def BrokerBehavior : Type := BrokerStep → Option String

/-- The steps `publish_event` executes, in order. -/
def publishSteps : List BrokerStep :=
  [.connect, .exchangeDeclare, .dlqDeclare, .queueDeclare, .bindQueue, .bindDlq, .basicPublish]

/-- Run a sequence of broker steps; the first raising step aborts the body. -/
def runSteps (b : BrokerBehavior) : List BrokerStep → Except String Unit
  | [] => .ok ()
  | s :: rest =>
    match b s with
    | some msg => .error msg
    | none => runSteps b rest

/-- The `try` body of `publish_event`: all steps in order, then `return True`.
There is no `return False` inside the body. -/
def publish_event_body (b : BrokerBehavior) : Except String Bool :=
  match runSteps b publishSteps with
  | .error msg => .error msg
  | .ok () => .ok true

/-- event_publisher.py `publish_event`: the body wrapped in
`except Exception: return False`. -/
def publish_event (b : BrokerBehavior) : Bool :=
  match publish_event_body b with
  | .ok r => r
  | .error _ => false

/-- event_publisher.py line 146: strip a leading `customer_` from the event type
(`"customer_".length = 9`). -/
def routingEventSuffix (event_type : String) : String :=
  if event_type.startsWith ("customer_") then event_type.drop 9 else event_type

/-- event_publisher.py line 147: `customer.{event_suffix}.{consumer_name}`. -/
def routingKey (event_type consumer_name : String) : String :=
  "customer." ++ routingEventSuffix event_type ++ "." ++ consumer_name

/-! ## crud.create_customer_event (crud.py lines 113-149)

Python signature defaults: `metadata=None`, `publish_status="published"`,
`published_at=None`, `publish_try_count=1`, `publish_last_tried_at=None`,
`publish_failure_reason=None`, `consumer_id=None`.  A `None` consumer falls
back to the system consumer UUID `…0001`; the delivery sub-state comes from
the models.py column defaults.  `event_id` and `created_at` are generated by
the database; they are passed in here as `fresh_event_id` / `now`. -/

/-- crud.py line 131: the `'00000000-0000-0000-0000-000000000001'` fallback. -/
def systemConsumerId : Nat := 1

def create_customer_event (fresh_event_id : Nat) (now : Int)
    (customer_id : Nat) (event_type source_service : String)
    (payload : List (String × String)) (metadata : Option (List (String × String)))
    (publish_status : String) (published_at : Option Int) (publish_try_count : Nat)
    (publish_last_tried_at : Option Int) (publish_failure_reason : Option String)
    (consumer_id : Option Nat) : CustomerEvent :=
  { event_id := fresh_event_id
    customer_id := customer_id
    consumer_id := consumer_id.getD systemConsumerId
    event_type := event_type
    source_service := some source_service
    payload_json := payload
    metadata_json := metadata
    created_at := now
    publish_status := publish_status
    published_at := published_at
    publish_try_count := publish_try_count
    publish_last_tried_at := publish_last_tried_at
    publish_failure_reason := publish_failure_reason
    deliver_status := "pending"
    delivered_at := none
    deliver_try_count := 0
    deliver_last_tried_at := none
    deliver_failure_reason := none }

/-- Invocation of `crud.create_customer_event` with every optional argument
left at its Python default (`metadata=None`, `publish_status="published"`,
`published_at=None`, `publish_try_count=1`, `publish_last_tried_at=None`,
`publish_failure_reason=None`, `consumer_id=None`). -/
def create_customer_event_with_defaults (fresh_event_id : Nat) (now : Int)
    (customer_id : Nat) (event_type source_service : String)
    (payload : List (String × String)) : CustomerEvent :=
  create_customer_event fresh_event_id now customer_id event_type source_service
    payload none ("published") none 1 none none none

/-! ## routes.create_customer (routes.py lines 110-184)

The outbox slice of the handler: insert the event row in `pending` state, then
attempt an immediate publish and record the outcome.  `publisher = none` models
`get_event_publisher()` yielding no publisher (`Publisher is None` branch);
`some o` models a publisher whose `publish_event` call has outcome `o`. -/
def create_customer_flow (now : Int) (fresh_event_id : Nat)
    (customer_id consumer_id : Nat) (name status : String)
    (publisher : Option PublishOutcome) (db : Database) : Database × CustomerEvent :=
  let event := create_customer_event fresh_event_id now customer_id
    ("customer_creation") ("POST: /customer/data")
    [("customer_id", toString customer_id), ("name", name), ("status", status)]
    (some [("created_at", toString now)])
    ("pending") none 1 (some now) none (some consumer_id)
  let event' :=
    match publisher with
    | some .ok =>
        -- lines 155-162: success branch
        { event with
          publish_status := "published"
          published_at := some now
          publish_failure_reason := none
          deliver_try_count := 1
          deliver_last_tried_at := some now }
    | some .returnedFalse =>
        -- lines 165-168: publish returned False
        { event with publish_failure_reason := some PUBLISH_ERROR_RABBITMQ_FALSE }
    | some (.raised msg) =>
        -- lines 176-179: exception from the publish attempt
        { event with publish_failure_reason := some msg }
    | none =>
        -- lines 170-173: publisher is None
        { event with publish_failure_reason := some PUBLISH_ERROR_PUBLISHER_NONE }
  ({ db with events := db.events ++ [event'] }, event')

/-! ## routes.resend_pending_events (routes.py lines 820-960) -/

/-- schemas.py `EventResendRequest` / `EventRedeliverRequest`: both carry
`period_in_days` (1-365), optional `max_try_count` (1-10) and optional
`event_types`. -/
structure EventSweepRequest where
  period_in_days : Nat
  max_try_count : Option Nat
  event_types : Option (List String)
  deriving Repr, DecidableEq

/-- Seconds per day, so that `timedelta(days=n)` is `n * secondsPerDay`. -/
def secondsPerDay : Int := 86400

/-- routes.py line 837 / 1143: `cutoff_date = utcnow() - timedelta(days=period_in_days)`. -/
def sweepCutoff (now : Int) (period_in_days : Nat) : Int :=
  now - period_in_days * secondsPerDay

/-- The resend query filters (routes.py lines 840-849).  The `event_types`
filter is only appended when the list is truthy, i.e. non-`None` AND non-empty
(`if resend_request.event_types:`). -/
def resendSelects (now : Int) (req : EventSweepRequest) (e : CustomerEvent) : Bool :=
  decide (e.created_at > sweepCutoff now req.period_in_days) &&
  (e.publish_status == "pending") &&
  (match req.max_try_count with
   | some m => decide (e.publish_try_count < m)
   | none => true) &&
  (match req.event_types with
   | some ts => if ts.isEmpty then true else ts.contains e.event_type
   | none => true)

/-- routes.py line 877: in-loop skip re-check,
`if resend_request.max_try_count and event.publish_try_count >= resend_request.max_try_count`
(an `int` is truthy iff non-zero). -/
def resendSkips (req : EventSweepRequest) (e : CustomerEvent) : Bool :=
  match req.max_try_count with
  | some m => decide (m ≠ 0) && decide (e.publish_try_count ≥ m)
  | none => false

/-- routes.py lines 909-915: record update on a successful republish. -/
def resendSuccessUpdate (now : Int) (e : CustomerEvent) : CustomerEvent :=
  { e with
    publish_status := "published"
    published_at := some now
    publish_try_count := e.publish_try_count + 1
    publish_last_tried_at := some now
    publish_failure_reason := none }

/-- routes.py lines 924-931: record update on a failed republish; the (already
incremented) try count reaching 10 marks the record permanently `failed`. -/
def resendFailUpdate (now : Int) (reason : Option String) (e : CustomerEvent) : CustomerEvent :=
  let e' := { e with
    publish_try_count := e.publish_try_count + 1
    publish_last_tried_at := some now
    publish_failure_reason := reason }
  if e'.publish_try_count ≥ 10 then { e' with publish_status := "failed" } else e'

/-- A sequence of failed resend attempts applied to one record: each element
carries the attempt time and the recorded failure reason. -/
def resendFailChain (attempts : List (Int × Option String)) (e : CustomerEvent) : CustomerEvent :=
  attempts.foldl (fun a p => resendFailUpdate p.1 p.2 a) e

/-- schemas.py `EventResendFailedEvent`. -/
structure EventResendFailedEvent where
  event_id : Nat
  event_type : String
  try_count : Nat
  failure_reason : Option String
  deriving Repr, DecidableEq

/-- What one iteration of a sweep loop did with a selected record. -/
inductive SweepTag (φ : Type) where
  | skippedIt
  | succeededIt
  | failedIt (fe : φ)
  deriving Repr, DecidableEq

def SweepTag.isSkip {φ : Type} : SweepTag φ → Bool
  | .skippedIt => true
  | _ => false

def SweepTag.isSuccess {φ : Type} : SweepTag φ → Bool
  | .succeededIt => true
  | _ => false

def SweepTag.isFailure {φ : Type} : SweepTag φ → Bool
  | .failedIt _ => true
  | _ => false

def SweepTag.failureEntry {φ : Type} : SweepTag φ → Option φ
  | .failedIt fe => some fe
  | _ => none

/-- One iteration of the resend loop (routes.py lines 875-945) on a selected
record: either skip (max-retry re-check), or attempt a publish with outcome
`pub e.event_id` and update the record accordingly. -/
def resendLoopStep (now : Int) (req : EventSweepRequest) (pub : Nat → PublishOutcome)
    (e : CustomerEvent) : CustomerEvent × SweepTag EventResendFailedEvent :=
  if resendSkips req e then (e, .skippedIt)
  else
    match pub e.event_id with
    | .ok => (resendSuccessUpdate now e, .succeededIt)
    | o =>
      let reason := outcomeFailureReason o
      let e' := resendFailUpdate now reason e
      (e', .failedIt ⟨e.event_id, e.event_type, e'.publish_try_count, reason⟩)

/-- How the resend sweep transforms an arbitrary row of `customer_events`:
rows outside the query result are untouched. -/
def resendMapFun (now : Int) (req : EventSweepRequest) (pub : Nat → PublishOutcome)
    (e : CustomerEvent) : CustomerEvent :=
  if resendSelects now req e then (resendLoopStep now req pub e).1 else e

/-- schemas.py `EventResendSummary` / `EventRedeliverSummary`. -/
structure EventSweepSummary where
  total_pending : Nat
  attempted : Nat
  succeeded : Nat
  failed : Nat
  skipped : Nat
  deriving Repr, DecidableEq

structure ResendResult where
  db : Database
  summary : EventSweepSummary
  failed_events : List EventResendFailedEvent
  deriving Repr, DecidableEq

/-- routes.py `resend_pending_events` (lines 820-960).  `publisher = none`
models `get_event_publisher()` unavailable (short-circuit, lines 862-872);
otherwise each selected record is processed by `resendLoopStep` and the
counters tally the per-record outcomes exactly as the loop does. -/
def resend_pending_events (now : Int) (req : EventSweepRequest)
    (publisher : Option (Nat → PublishOutcome)) (db : Database) : ResendResult :=
  let pending := db.events.filter (resendSelects now req)
  let total := pending.length
  match publisher with
  | none =>
      { db := db
        summary := ⟨total, 0, 0, 0, total⟩
        failed_events := [] }
  | some pub =>
      let tags := pending.map (fun e => (resendLoopStep now req pub e).2)
      { db := { db with events := db.events.map (resendMapFun now req pub) }
        summary :=
          ⟨total,
           tags.countP (fun t => !t.isSkip),
           tags.countP SweepTag.isSuccess,
           tags.countP SweepTag.isFailure,
           tags.countP SweepTag.isSkip⟩
        failed_events := tags.filterMap SweepTag.failureEntry }

/-! ## routes.redeliver_pending_events (routes.py lines 1126-1268) -/

/-- The redeliver query filters (routes.py lines 1146-1156): in-window,
`publish_status == "published"`, `deliver_status == "pending"`, optional
delivery-try-count ceiling, optional (truthy) event-type list. -/
def redeliverSelects (now : Int) (req : EventSweepRequest) (e : CustomerEvent) : Bool :=
  decide (e.created_at > sweepCutoff now req.period_in_days) &&
  (e.publish_status == "published") &&
  (e.deliver_status == "pending") &&
  (match req.max_try_count with
   | some m => decide (e.deliver_try_count < m)
   | none => true) &&
  (match req.event_types with
   | some ts => if ts.isEmpty then true else ts.contains e.event_type
   | none => true)

/-- Ordering used by the redeliver query (routes.py line 1159,
`order_by(CustomerEvent.created_at.asc())`). -/
abbrev createdAtOrder (a b : CustomerEvent) : Prop :=
  a.created_at ≤ b.created_at

instance : DecidableRel createdAtOrder := fun a b =>
  inferInstanceAs (Decidable (a.created_at ≤ b.created_at))

instance : IsTotal CustomerEvent createdAtOrder :=
  ⟨fun a b => le_total a.created_at b.created_at⟩

instance : IsTrans CustomerEvent createdAtOrder :=
  ⟨fun _ _ _ hab hbc => le_trans hab hbc⟩

/-- The redeliver query result: the matching rows ordered by `created_at`
ascending (a stable sort, as SQL `ORDER BY` on the filtered rows). -/
def redeliverSelection (now : Int) (req : EventSweepRequest) (db : Database) :
    List CustomerEvent :=
  (db.events.filter (redeliverSelects now req)).insertionSort createdAtOrder

/-- routes.py line 1187: in-loop skip re-check on `deliver_try_count`. -/
def redeliverSkips (req : EventSweepRequest) (e : CustomerEvent) : Bool :=
  match req.max_try_count with
  | some m => decide (m ≠ 0) && decide (e.deliver_try_count ≥ m)
  | none => false

/-- routes.py lines 1219-1223: delivery-attempt tracking on a successful
re-emission (the sweeper never sets `deliver_status = delivered` itself). -/
def redeliverSuccessUpdate (now : Int) (e : CustomerEvent) : CustomerEvent :=
  { e with
    deliver_try_count := e.deliver_try_count + 1
    deliver_last_tried_at := some now
    deliver_failure_reason := none }

/-- routes.py lines 1232-1239: failed re-emission; the incremented delivery
try count reaching 10 marks `deliver_status = failed`. -/
def redeliverFailUpdate (now : Int) (reason : Option String) (e : CustomerEvent) : CustomerEvent :=
  let e' := { e with
    deliver_try_count := e.deliver_try_count + 1
    deliver_last_tried_at := some now
    deliver_failure_reason := reason }
  if e'.deliver_try_count ≥ 10 then { e' with deliver_status := "failed" } else e'

/-- schemas.py `EventRedeliverFailedEvent`. -/
structure EventRedeliverFailedEvent where
  event_id : Nat
  event_type : String
  deliver_try_count : Nat
  deliver_failure_reason : Option String
  deriving Repr, DecidableEq

/-- One iteration of the redeliver loop (routes.py lines 1185-1253). -/
def redeliverLoopStep (now : Int) (req : EventSweepRequest) (pub : Nat → PublishOutcome)
    (e : CustomerEvent) : CustomerEvent × SweepTag EventRedeliverFailedEvent :=
  if redeliverSkips req e then (e, .skippedIt)
  else
    match pub e.event_id with
    | .ok => (redeliverSuccessUpdate now e, .succeededIt)
    | o =>
      let reason := outcomeFailureReason o
      let e' := redeliverFailUpdate now reason e
      (e', .failedIt ⟨e.event_id, e.event_type, e'.deliver_try_count, reason⟩)

/-- How the redeliver sweep transforms an arbitrary row of `customer_events`. -/
def redeliverMapFun (now : Int) (req : EventSweepRequest) (pub : Nat → PublishOutcome)
    (e : CustomerEvent) : CustomerEvent :=
  if redeliverSelects now req e then (redeliverLoopStep now req pub e).1 else e

structure RedeliverResult where
  db : Database
  summary : EventSweepSummary
  failed_events : List EventRedeliverFailedEvent
  deriving Repr, DecidableEq

/-- routes.py `redeliver_pending_events` (lines 1126-1268). -/
def redeliver_pending_events (now : Int) (req : EventSweepRequest)
    (publisher : Option (Nat → PublishOutcome)) (db : Database) : RedeliverResult :=
  let pending := redeliverSelection now req db
  let total := pending.length
  match publisher with
  | none =>
      { db := db
        summary := ⟨total, 0, 0, 0, total⟩
        failed_events := [] }
  | some pub =>
      let tags := pending.map (fun e => (redeliverLoopStep now req pub e).2)
      { db := { db with events := db.events.map (redeliverMapFun now req pub) }
        summary :=
          ⟨total,
           tags.countP (fun t => !t.isSkip),
           tags.countP SweepTag.isSuccess,
           tags.countP SweepTag.isFailure,
           tags.countP SweepTag.isSkip⟩
        failed_events := tags.filterMap SweepTag.failureEntry }

/-! ## routes.confirm_event_delivery (routes.py lines 1036-1108) -/

/-- schemas.py `EventConfirmDeliveryRequest` (`status` is constrained by the
schema to `received`, `processed` or `failed`). -/
structure EventConfirmDeliveryRequest where
  event_id : Nat
  status : String
  received_at : Int
  failure_reason : Option String
  consumer_name : String
  deriving Repr, DecidableEq

inductive ConfirmOutcome where
  | ok
  | notFound
  deriving Repr, DecidableEq

/-- crud.py `get_consumer_by_name` (line 504). -/
def get_consumer_by_name (consumers : List Consumer) (name : String) : Option Consumer :=
  consumers.find? (fun c => c.name == name)

/-- routes.py lines 1098-1104: the delivery sub-state update applied to the
matched event row. -/
def confirmEventUpdate (now : Int) (req : EventConfirmDeliveryRequest)
    (e : CustomerEvent) : CustomerEvent :=
  if req.status == "received" || req.status == "processed" then
    { e with
      deliver_status := "delivered"
      delivered_at := some now
      deliver_failure_reason := none }
  else
    { e with
      deliver_status := "failed"
      deliver_failure_reason := req.failure_reason }

/-- Mutate the first row with the given `event_id` (SQLAlchemy `.first()` +
in-place mutation); later rows are untouched. -/
def updateFirstEvent (eid : Nat) (f : CustomerEvent → CustomerEvent) :
    List CustomerEvent → List CustomerEvent
  | [] => []
  | e :: rest =>
    if e.event_id == eid then f e :: rest else e :: updateFirstEvent eid f rest

/-- routes.py `confirm_event_delivery` (lines 1036-1108): 404 when the event
is unknown; idempotent no-op when a receipt already exists; otherwise create
the receipt and flip the delivery sub-state. -/
def confirm_event_delivery (now : Int) (fresh_receipt_id : Nat)
    (req : EventConfirmDeliveryRequest) (db : Database) : Database × ConfirmOutcome :=
  match db.events.find? (fun e => e.event_id == req.event_id) with
  | none => (db, .notFound)
  | some event =>
    match db.receipts.find? (fun r => r.event_id == req.event_id) with
    | some _ => (db, .ok)
    | none =>
      let consumer := get_consumer_by_name db.consumers req.consumer_name
      let receipt : ConsumerEventReceipt :=
        { receipt_id := fresh_receipt_id
          consumer_id := consumer.map (fun c => c.consumer_id)
          event_id := req.event_id
          customer_id := event.customer_id
          event_type := event.event_type
          received_at := req.received_at
          processing_status := req.status
          processing_failure_reason := req.failure_reason }
      ({ db with
          events := updateFirstEvent req.event_id (confirmEventUpdate now req) db.events
          receipts := db.receipts ++ [receipt] },
       .ok)

/-! ## Spec invariants (spec.md section 3) -/

/-- spec.md: `publish_status = published` ⟺ `published_at` is set and
`publish_failure_reason` is null. -/
def publishInvariant (e : CustomerEvent) : Prop :=
  e.publish_status = "published" ↔ (e.published_at.isSome ∧ e.publish_failure_reason = none)

instance (e : CustomerEvent) : Decidable (publishInvariant e) :=
  inferInstanceAs (Decidable (_ ↔ _))

/-! ## Sample records for concrete witnesses -/

/-- A sample freshly created pending outbox row used by concrete witnesses:
id 2, created at time 0, first publish attempt pending. -/
def samplePendingEvent : CustomerEvent :=
  { event_id := 2
    customer_id := 5
    consumer_id := 3
    event_type := "customer_creation"
    source_service := none
    payload_json := []
    metadata_json := none
    created_at := 0
    publish_status := "pending"
    published_at := none
    publish_try_count := 1
    publish_last_tried_at := none
    publish_failure_reason := none
    deliver_status := "pending"
    delivered_at := none
    deliver_try_count := 0
    deliver_last_tried_at := none
    deliver_failure_reason := none }

/-- A sample published-but-undelivered outbox row used by concrete witnesses:
id 1, created at time 50, published at time 60. -/
def samplePublishedEvent : CustomerEvent :=
  { event_id := 1
    customer_id := 5
    consumer_id := 3
    event_type := "customer_creation"
    source_service := none
    payload_json := []
    metadata_json := none
    created_at := 50
    publish_status := "published"
    published_at := some 60
    publish_try_count := 1
    publish_last_tried_at := some 60
    publish_failure_reason := none
    deliver_status := "pending"
    delivered_at := none
    deliver_try_count := 1
    deliver_last_tried_at := some 60
    deliver_failure_reason := none }

theorem runSteps_ok_iff (b : BrokerBehavior) (l : List BrokerStep) :
    runSteps b l = .ok () ↔ ∀ s ∈ l, b s = none := by
  induction l with
  | nil => simp [runSteps]
  | cons s rest ih =>
    cases h : b s with
    | some msg => simp [runSteps, h]
    | none => simp [runSteps, h, ih]

/-- C8: `EventPublisher.publish_event` never raises to its caller — it is a
total Boolean function of the broker behaviour; it returns `true` exactly when
every broker-touching step (connection, topology declaration, emission)
succeeds, i.e. only when the broker accepts the message; whenever the body
raises, the call returns `false`; and the body never returns `false` itself
(there is no non-exception failure path). -/
theorem publish_event_never_raises (b : BrokerBehavior) :
    (publish_event b = true ↔ ∀ s ∈ publishSteps, b s = none) ∧
    (∀ msg, publish_event_body b = Except.error msg → publish_event b = false) ∧
    publish_event_body b ≠ Except.ok false := by
  refine ⟨⟨?_, ?_⟩, ?_, ?_⟩
  · intro h
    rw [← runSteps_ok_iff]
    unfold publish_event publish_event_body at h
    cases hr : runSteps b publishSteps with
    | ok u => cases u; rfl
    | error msg => rw [hr] at h; simp at h
  · intro h
    have hok : runSteps b publishSteps = .ok () := (runSteps_ok_iff b _).mpr h
    unfold publish_event publish_event_body
    rw [hok]
  · intro msg h
    unfold publish_event
    rw [h]
  · unfold publish_event_body
    cases hr : runSteps b publishSteps with
    | ok u => cases u; simp
    | error msg => simp

/-- Witness for C8 at a behaviour whose first step raises: the caller sees
`false`, not an exception. -/
theorem publish_event_never_raises_witness :
    publish_event (fun _ => some ("boom")) = false :=
  (publish_event_never_raises (fun _ => some ("boom"))).2.1 ("boom") rfl

/-- C4: the customer-creation flow first stores the outbox row with
`publish_status = "pending"`, and when the publisher is present and the broker
accepts the message (`some .ok`), the stored Event Record ends with
`publish_status = "published"`, `published_at` set, a cleared failure reason,
and the seeded first delivery attempt (`deliver_try_count = 1`,
`deliver_last_tried_at` set). -/
theorem create_customer_publish_success (now : Int) (fid cid conid : Nat)
    (name st : String) (db : Database) :
    (create_customer_event fid now cid ("customer_creation") ("POST: /customer/data")
        [("customer_id", toString cid), ("name", name), ("status", st)]
        (some [("created_at", toString now)])
        ("pending") none 1 (some now) none (some conid)).publish_status = "pending" ∧
    ((create_customer_flow now fid cid conid name st (some .ok) db).2.publish_status
        = "published" ∧
     (create_customer_flow now fid cid conid name st (some .ok) db).2.published_at
        = some now ∧
     (create_customer_flow now fid cid conid name st (some .ok) db).2.publish_failure_reason
        = none ∧
     (create_customer_flow now fid cid conid name st (some .ok) db).2.deliver_try_count
        = 1 ∧
     (create_customer_flow now fid cid conid name st (some .ok) db).2.deliver_last_tried_at
        = some now ∧
     (create_customer_flow now fid cid conid name st (some .ok) db).1.events
        = db.events ++ [(create_customer_flow now fid cid conid name st (some .ok) db).2]) := by
  refine ⟨rfl, rfl, rfl, rfl, rfl, rfl, rfl⟩

/-- C9: confirming delivery for an `event_id` with no Event Record returns the
404 outcome and leaves the whole database state (receipts and events alike)
unchanged. -/
theorem confirm_unknown_event_404 (now : Int) (rid : Nat)
    (req : EventConfirmDeliveryRequest) (db : Database)
    (h : ∀ e ∈ db.events, e.event_id ≠ req.event_id) :
    confirm_event_delivery now rid req db = (db, ConfirmOutcome.notFound) := by
  have hf : db.events.find? (fun e => e.event_id == req.event_id) = none := by
    apply List.find?_eq_none.mpr
    intro e he
    simpa using h e he
  unfold confirm_event_delivery
  rw [hf]

/-- Witness for C9: a database holding only `samplePendingEvent` (id 2) and a
confirmation for the unknown id 1. -/
theorem confirm_unknown_event_404_witness :
    confirm_event_delivery 0 7 ⟨1, "processed", 0, none, "consumer_a"⟩
        ⟨[samplePendingEvent], [], []⟩
      = (⟨[samplePendingEvent], [], []⟩, ConfirmOutcome.notFound) :=
  confirm_unknown_event_404 0 7 _ _ (by decide)

/-- C1: an Event Record with `publish_status = "published"` is never selected
by the resend sweep — for every `period_in_days`, `max_try_count` and
`event_types` it fails the query predicate, does not appear in the queried
pending list (so it is not counted in `total_pending` and no publish attempt is
made for it), and the record at its row position is unchanged by the sweep. -/
theorem resend_excludes_published (now : Int) (req : EventSweepRequest)
    (publisher : Option (Nat → PublishOutcome)) (db : Database)
    (e : CustomerEvent) (i : Nat)
    (hi : db.events[i]? = some e) (hp : e.publish_status = "published") :
    resendSelects now req e = false ∧
    e ∉ db.events.filter (resendSelects now req) ∧
    (resend_pending_events now req publisher db).db.events[i]? = some e := by
  have hsel : resendSelects now req e = false := by
    unfold resendSelects
    rw [hp]
    simp
  refine ⟨hsel, ?_, ?_⟩
  · intro hmem
    have hpred := (List.mem_filter.mp hmem).2
    rw [hsel] at hpred
    exact absurd hpred (by simp)
  · cases publisher with
    | none => simpa [resend_pending_events] using hi
    | some pub =>
      show (db.events.map (resendMapFun now req pub))[i]? = some e
      rw [List.getElem?_map, hi]
      simp [resendMapFun, hsel]

/-- Witness for C1: the concrete published record `samplePublishedEvent` in a
one-row database is not selected by a resend sweep. -/
theorem resend_excludes_published_witness :
    resendSelects 100 ⟨7, none, none⟩ samplePublishedEvent = false :=
  (resend_excludes_published 100 ⟨7, none, none⟩ (some (fun _ => .ok))
    ⟨[samplePublishedEvent], [], []⟩ samplePublishedEvent 0 rfl rfl).1

theorem sweepTag_total_partition {φ : Type} (tags : List (SweepTag φ)) :
    tags.length = tags.countP (fun t => !t.isSkip) + tags.countP SweepTag.isSkip := by
  induction tags with
  | nil => rfl
  | cons t rest ih =>
    cases t <;> simp [List.countP_cons, SweepTag.isSkip, ih] <;> omega

theorem sweepTag_attempted_partition {φ : Type} (tags : List (SweepTag φ)) :
    tags.countP (fun t => !t.isSkip)
      = tags.countP SweepTag.isSuccess + tags.countP SweepTag.isFailure := by
  induction tags with
  | nil => rfl
  | cons t rest ih =>
    rw [List.countP_cons, List.countP_cons, List.countP_cons, ih]
    cases t <;> simp [SweepTag.isSkip, SweepTag.isSuccess, SweepTag.isFailure] <;> omega

theorem sweepTag_failureEntry_length {φ : Type} (tags : List (SweepTag φ)) :
    (tags.filterMap SweepTag.failureEntry).length = tags.countP SweepTag.isFailure := by
  induction tags with
  | nil => rfl
  | cons t rest ih =>
    cases t <;> simp [List.countP_cons, SweepTag.failureEntry, SweepTag.isFailure, ih]

/-- C10: every invocation of the resend sweep and of the redeliver sweep
returns a summary with `total_pending = attempted + skipped` and
`attempted = succeeded + failed`, and a `failed_events` list with exactly
`failed` entries; when the publisher is unavailable the counters are
`attempted = succeeded = failed = 0` and `skipped = total_pending`. -/
theorem sweep_summary_consistency :
    (∀ (now : Int) (req : EventSweepRequest)
       (publisher : Option (Nat → PublishOutcome)) (db : Database),
       (resend_pending_events now req publisher db).summary.total_pending
          = (resend_pending_events now req publisher db).summary.attempted
            + (resend_pending_events now req publisher db).summary.skipped ∧
       (resend_pending_events now req publisher db).summary.attempted
          = (resend_pending_events now req publisher db).summary.succeeded
            + (resend_pending_events now req publisher db).summary.failed ∧
       (resend_pending_events now req publisher db).failed_events.length
          = (resend_pending_events now req publisher db).summary.failed) ∧
    (∀ (now : Int) (req : EventSweepRequest)
       (publisher : Option (Nat → PublishOutcome)) (db : Database),
       (redeliver_pending_events now req publisher db).summary.total_pending
          = (redeliver_pending_events now req publisher db).summary.attempted
            + (redeliver_pending_events now req publisher db).summary.skipped ∧
       (redeliver_pending_events now req publisher db).summary.attempted
          = (redeliver_pending_events now req publisher db).summary.succeeded
            + (redeliver_pending_events now req publisher db).summary.failed ∧
       (redeliver_pending_events now req publisher db).failed_events.length
          = (redeliver_pending_events now req publisher db).summary.failed) ∧
    (∀ (now : Int) (req : EventSweepRequest) (db : Database),
       (resend_pending_events now req none db).summary.attempted = 0 ∧
       (resend_pending_events now req none db).summary.succeeded = 0 ∧
       (resend_pending_events now req none db).summary.failed = 0 ∧
       (resend_pending_events now req none db).summary.skipped
          = (resend_pending_events now req none db).summary.total_pending ∧
       (redeliver_pending_events now req none db).summary.attempted = 0 ∧
       (redeliver_pending_events now req none db).summary.succeeded = 0 ∧
       (redeliver_pending_events now req none db).summary.failed = 0 ∧
       (redeliver_pending_events now req none db).summary.skipped
          = (redeliver_pending_events now req none db).summary.total_pending) := by
  refine ⟨?_, ?_, ?_⟩
  · intro now req publisher db
    cases publisher with
    | none => exact ⟨(Nat.zero_add _).symm, rfl, rfl⟩
    | some pub =>
      refine ⟨?_, ?_, ?_⟩
      · show (db.events.filter (resendSelects now req)).length = _
        rw [← List.length_map (db.events.filter (resendSelects now req))
              (fun e => (resendLoopStep now req pub e).2)]
        exact sweepTag_total_partition _
      · exact sweepTag_attempted_partition _
      · exact sweepTag_failureEntry_length _
  · intro now req publisher db
    cases publisher with
    | none => exact ⟨(Nat.zero_add _).symm, rfl, rfl⟩
    | some pub =>
      refine ⟨?_, ?_, ?_⟩
      · show (redeliverSelection now req db).length = _
        rw [← List.length_map (redeliverSelection now req db)
              (fun e => (redeliverLoopStep now req pub e).2)]
        exact sweepTag_total_partition _
      · exact sweepTag_attempted_partition _
      · exact sweepTag_failureEntry_length _
  · intro now req db
    exact ⟨rfl, rfl, rfl, rfl, rfl, rfl, rfl, rfl⟩

theorem resendFailUpdate_fields (now : Int) (r : Option String) (e : CustomerEvent) :
    (resendFailUpdate now r e).publish_try_count = e.publish_try_count + 1 ∧
    (resendFailUpdate now r e).publish_last_tried_at = some now ∧
    (resendFailUpdate now r e).publish_failure_reason = r ∧
    (resendFailUpdate now r e).publish_status
      = if 10 ≤ e.publish_try_count + 1 then "failed" else e.publish_status := by
  refine ⟨?_, ?_, ?_, ?_⟩ <;> unfold resendFailUpdate <;> dsimp only
  · split <;> rfl
  · split <;> rfl
  · split <;> rfl
  · split <;> rfl

theorem resendFailChain_spec (attempts : List (Int × Option String)) :
    ∀ e : CustomerEvent,
      (resendFailChain attempts e).publish_try_count
        = e.publish_try_count + attempts.length ∧
      (resendFailChain attempts e).publish_status
        = if 1 ≤ attempts.length ∧ 10 ≤ e.publish_try_count + attempts.length
          then "failed" else e.publish_status := by
  induction attempts with
  | nil => intro e; simp [resendFailChain]
  | cons p rest ih =>
    intro e
    have hstep : resendFailChain (p :: rest) e
        = resendFailChain rest (resendFailUpdate p.1 p.2 e) := rfl
    obtain ⟨hc, hs⟩ := ih (resendFailUpdate p.1 p.2 e)
    obtain ⟨h1, -, -, h4⟩ := resendFailUpdate_fields p.1 p.2 e
    constructor
    · rw [hstep, hc, h1, List.length_cons]
      omega
    · rw [hstep, hs, h1, h4, List.length_cons]
      split_ifs <;> first | rfl | (exfalso; omega)

/-- C3: a record selected and attempted by the resend sweep whose publish
fails gets `publish_try_count` incremented, `publish_last_tried_at` and
`publish_failure_reason` set, and `publish_status = "failed"` exactly when the
incremented count reaches 10; consequently a record that started at
`publish_try_count = 1` in `pending` state and suffered nine failed resend
attempts is permanently `failed` with count 10, fails the resend selection
predicate for every later request, and contributes 0 to `total_pending` in
every later invocation. -/
theorem resend_failure_tracking_and_terminal :
    (∀ (now : Int) (req : EventSweepRequest) (pub : Nat → PublishOutcome)
       (e : CustomerEvent),
       resendSelects now req e = true → resendSkips req e = false →
       pub e.event_id ≠ .ok →
       resendMapFun now req pub e = (resendLoopStep now req pub e).1 ∧
       (resendLoopStep now req pub e).1.publish_try_count = e.publish_try_count + 1 ∧
       (resendLoopStep now req pub e).1.publish_last_tried_at = some now ∧
       (resendLoopStep now req pub e).1.publish_failure_reason
          = outcomeFailureReason (pub e.event_id) ∧
       (resendLoopStep now req pub e).1.publish_status
          = if 10 ≤ e.publish_try_count + 1 then "failed" else e.publish_status) ∧
    (∀ (attempts : List (Int × Option String)) (e0 : CustomerEvent),
       attempts.length = 9 → e0.publish_try_count = 1 → e0.publish_status = "pending" →
       (resendFailChain attempts e0).publish_status = "failed" ∧
       (resendFailChain attempts e0).publish_try_count = 10 ∧
       (∀ (now : Int) (req : EventSweepRequest),
          resendSelects now req (resendFailChain attempts e0) = false) ∧
       (∀ (now : Int) (req : EventSweepRequest)
          (publisher : Option (Nat → PublishOutcome))
          (rs : List ConsumerEventReceipt) (cs : List Consumer),
          (resend_pending_events now req publisher
              ⟨[resendFailChain attempts e0], rs, cs⟩).summary.total_pending = 0)) := by
  constructor
  · intro now req pub e hsel hsk hne
    refine ⟨by simp [resendMapFun, hsel], ?_⟩
    unfold resendLoopStep
    rw [hsk]
    simp only [Bool.false_eq_true, if_false]
    cases ho : pub e.event_id with
    | ok => exact absurd ho hne
    | returnedFalse =>
      obtain ⟨h1, h2, h3, h4⟩ :=
        resendFailUpdate_fields now (outcomeFailureReason .returnedFalse) e
      exact ⟨h1, h2, h3, h4⟩
    | raised msg =>
      obtain ⟨h1, h2, h3, h4⟩ :=
        resendFailUpdate_fields now (outcomeFailureReason (.raised msg)) e
      exact ⟨h1, h2, h3, h4⟩
  · intro attempts e0 hlen hcount hstatus
    obtain ⟨hc, hs⟩ := resendFailChain_spec attempts e0
    rw [hlen] at hc hs
    rw [hcount] at hc hs
    have hfin : (resendFailChain attempts e0).publish_status = "failed" := by
      rw [hs, if_pos]
      exact ⟨by omega, by omega⟩
    have hsel : ∀ (now : Int) (req : EventSweepRequest),
        resendSelects now req (resendFailChain attempts e0) = false := by
      intro now req
      unfold resendSelects
      rw [hfin]
      simp
    refine ⟨hfin, hc, hsel, ?_⟩
    intro now req publisher rs cs
    cases publisher with
    | none =>
      show (List.filter (resendSelects now req) [resendFailChain attempts e0]).length = 0
      simp [List.filter, hsel now req]
    | some pub =>
      show (List.filter (resendSelects now req) [resendFailChain attempts e0]).length = 0
      simp [List.filter, hsel now req]

/-- Witness for C3: nine concrete failed attempts on `samplePendingEvent`
leave the record in terminal `failed` publish state. -/
theorem resend_failure_tracking_and_terminal_witness :
    (resendFailChain (List.replicate 9 ((0 : Int), some ("x")))
        samplePendingEvent).publish_status = "failed" :=
  (resend_failure_tracking_and_terminal.2
    (List.replicate 9 ((0 : Int), some ("x"))) samplePendingEvent rfl rfl rfl).1

theorem redeliverSelects_eq_true_iff (now : Int) (req : EventSweepRequest)
    (e : CustomerEvent) :
    redeliverSelects now req e = true ↔
      (sweepCutoff now req.period_in_days < e.created_at ∧
       e.publish_status = "published" ∧
       e.deliver_status = "pending" ∧
       (∀ m, req.max_try_count = some m → e.deliver_try_count < m) ∧
       (∀ ts, req.event_types = some ts → ts ≠ [] → e.event_type ∈ ts)) := by
  unfold redeliverSelects
  cases hm : req.max_try_count with
  | none =>
    cases ht : req.event_types with
    | none => simp [and_assoc]
    | some ts =>
      cases ts with
      | nil => simp [and_assoc]
      | cons a l => simp [and_assoc]
  | some m =>
    cases ht : req.event_types with
    | none => simp [and_assoc]
    | some ts =>
      cases ts with
      | nil => simp [and_assoc]
      | cons a l => simp [and_assoc]

/-- C7: the redeliver sweep's queried selection contains a record exactly when
it lies in the event table, is inside the age window, has
`publish_status = "published"` and `deliver_status = "pending"`, and passes the
optional `max_try_count` and (truthy) `event_types` filters; the selection is
ordered by `created_at` ascending; and a record with
`publish_status = "pending"` is never selected, regardless of age. -/
theorem redeliver_selection_characterization :
    (∀ (now : Int) (req : EventSweepRequest) (db : Database) (x : CustomerEvent),
       x ∈ redeliverSelection now req db ↔
         (x ∈ db.events ∧
          sweepCutoff now req.period_in_days < x.created_at ∧
          x.publish_status = "published" ∧
          x.deliver_status = "pending" ∧
          (∀ m, req.max_try_count = some m → x.deliver_try_count < m) ∧
          (∀ ts, req.event_types = some ts → ts ≠ [] → x.event_type ∈ ts))) ∧
    (∀ (now : Int) (req : EventSweepRequest) (db : Database),
       List.Sorted createdAtOrder (redeliverSelection now req db)) ∧
    (∀ (now : Int) (req : EventSweepRequest) (db : Database) (x : CustomerEvent),
       x.publish_status = "pending" → x ∉ redeliverSelection now req db) := by
  have hmem : ∀ (now : Int) (req : EventSweepRequest) (db : Database) (x : CustomerEvent),
      x ∈ redeliverSelection now req db ↔
        x ∈ db.events ∧ redeliverSelects now req x = true := by
    intro now req db x
    unfold redeliverSelection
    rw [List.mem_insertionSort, List.mem_filter]
  refine ⟨?_, ?_, ?_⟩
  · intro now req db x
    exact (hmem now req db x).trans
      (and_congr_right fun _ => redeliverSelects_eq_true_iff now req x)
  · intro now req db
    exact List.sorted_insertionSort createdAtOrder _
  · intro now req db x hx hin
    have hsel := ((hmem now req db x).mp hin).2
    have hpub := ((redeliverSelects_eq_true_iff now req x).mp hsel).2.1
    rw [hx] at hpub
    exact absurd hpub (by decide)

/-- Witness for C7: the concrete pending-publish record `samplePendingEvent`
is not in the redeliver selection of a one-row database. -/
theorem redeliver_selection_characterization_witness :
    samplePendingEvent ∉
      redeliverSelection 100 ⟨7, none, none⟩ ⟨[samplePendingEvent], [], []⟩ :=
  redeliver_selection_characterization.2.2 100 ⟨7, none, none⟩
    ⟨[samplePendingEvent], [], []⟩ samplePendingEvent rfl

theorem confirmEventUpdate_event_id (now : Int) (req : EventConfirmDeliveryRequest)
    (e : CustomerEvent) : (confirmEventUpdate now req e).event_id = e.event_id := by
  unfold confirmEventUpdate
  split <;> rfl

theorem find?_updateFirstEvent (eid : Nat) (f : CustomerEvent → CustomerEvent)
    (hf : ∀ e, (f e).event_id = e.event_id) :
    ∀ (l : List CustomerEvent) (e0 : CustomerEvent),
      l.find? (fun e => e.event_id == eid) = some e0 →
      (updateFirstEvent eid f l).find? (fun e => e.event_id == eid) = some (f e0) := by
  intro l
  induction l with
  | nil => intro e0 h; simp [List.find?] at h
  | cons e rest ih =>
    intro e0 h
    have hup0 : updateFirstEvent eid f (e :: rest)
        = if e.event_id == eid then f e :: rest else e :: updateFirstEvent eid f rest := rfl
    cases hpe : (e.event_id == eid) with
    | true =>
      simp only [List.find?_cons, hpe] at h
      have he0 : e = e0 := Option.some.inj h
      rw [hup0, if_pos hpe, ← he0]
      simp only [List.find?_cons, hf e, hpe]
    | false =>
      simp only [List.find?_cons, hpe] at h
      rw [hup0, if_neg (by simp [hpe])]
      simp only [List.find?_cons, hpe]
      exact ih e0 h

theorem find?_append_of_none {α : Type} (p : α → Bool) (l₁ l₂ : List α)
    (h : l₁.find? p = none) : (l₁ ++ l₂).find? p = l₂.find? p := by
  rw [List.find?_append, h]
  rfl

theorem countP_eq_zero_of_find?_none {α : Type} {p : α → Bool} {l : List α}
    (h : l.find? p = none) : l.countP p = 0 := by
  rw [List.countP_eq_zero]
  intro a ha
  have := List.find?_eq_none.mp h a ha
  simpa using this

/-- C2: confirming delivery twice with the same `event_id` and
`status = "processed"` on a database that holds the Event Record and no prior
receipt yields success both times, leaves exactly one Delivery Receipt for
that `event_id`, sets the Event Record's `deliver_status = "delivered"`, and
the second call changes nothing; moreover, whenever the Event Record exists
and a Delivery Receipt already exists for the `event_id`, the call returns
success with no change at all to the database. -/
theorem confirm_delivery_idempotent
    (now now' : Int) (rid rid' : Nat) (req : EventConfirmDeliveryRequest)
    (db : Database) (e0 : CustomerEvent)
    (hstatus : req.status = "processed")
    (hfind : db.events.find? (fun e => e.event_id == req.event_id) = some e0)
    (hfresh : db.receipts.find? (fun r => r.event_id == req.event_id) = none) :
    ((confirm_event_delivery now rid req db).2 = ConfirmOutcome.ok ∧
     (confirm_event_delivery now' rid' req (confirm_event_delivery now rid req db).1)
        = ((confirm_event_delivery now rid req db).1, ConfirmOutcome.ok) ∧
     (confirm_event_delivery now rid req db).1.receipts.countP
        (fun r => r.event_id == req.event_id) = 1 ∧
     (confirm_event_delivery now rid req db).1.events.find?
        (fun e => e.event_id == req.event_id)
        = some (confirmEventUpdate now req e0) ∧
     (confirmEventUpdate now req e0).deliver_status = "delivered") ∧
    (∀ (db' : Database) (now'' : Int) (rid'' : Nat),
       (db'.events.find? (fun e => e.event_id == req.event_id)).isSome →
       (db'.receipts.find? (fun r => r.event_id == req.event_id)).isSome →
       confirm_event_delivery now'' rid'' req db' = (db', ConfirmOutcome.ok)) := by
  have hnoop : ∀ (db' : Database) (now'' : Int) (rid'' : Nat),
      (db'.events.find? (fun e => e.event_id == req.event_id)).isSome →
      (db'.receipts.find? (fun r => r.event_id == req.event_id)).isSome →
      confirm_event_delivery now'' rid'' req db' = (db', ConfirmOutcome.ok) := by
    intro db' now'' rid'' hev hrc
    obtain ⟨ev, hev⟩ := Option.isSome_iff_exists.mp hev
    obtain ⟨rc, hrc⟩ := Option.isSome_iff_exists.mp hrc
    unfold confirm_event_delivery
    rw [hev, hrc]
  have hcall : confirm_event_delivery now rid req db =
      ({ db with
          events := updateFirstEvent req.event_id (confirmEventUpdate now req) db.events
          receipts := db.receipts ++
            [{ receipt_id := rid
               consumer_id := (get_consumer_by_name db.consumers req.consumer_name).map
                 (fun c => c.consumer_id)
               event_id := req.event_id
               customer_id := e0.customer_id
               event_type := e0.event_type
               received_at := req.received_at
               processing_status := req.status
               processing_failure_reason := req.failure_reason }] },
       ConfirmOutcome.ok) := by
    unfold confirm_event_delivery
    rw [hfind, hfresh]
  have hfind1 : (confirm_event_delivery now rid req db).1.events.find?
      (fun e => e.event_id == req.event_id) = some (confirmEventUpdate now req e0) := by
    rw [hcall]
    exact find?_updateFirstEvent req.event_id (confirmEventUpdate now req)
      (confirmEventUpdate_event_id now req) db.events e0 hfind
  have hrc1 : ((confirm_event_delivery now rid req db).1.receipts.find?
      (fun r => r.event_id == req.event_id)).isSome := by
    rw [hcall]
    dsimp only
    rw [find?_append_of_none _ _ _ hfresh]
    simp [List.find?_cons]
  refine ⟨⟨?_, ?_, ?_, hfind1, ?_⟩, hnoop⟩
  · rw [hcall]
  · exact hnoop (confirm_event_delivery now rid req db).1 now' rid'
      (by rw [hfind1]; rfl) hrc1
  · rw [hcall]
    dsimp only
    rw [List.countP_append, countP_eq_zero_of_find?_none hfresh]
    simp [List.countP_cons]
  · unfold confirmEventUpdate
    rw [hstatus]
    simp

/-- Witness for C2: a concrete double confirmation of the published record
with id 1 leaves exactly one receipt for that id. -/
theorem confirm_delivery_idempotent_witness :
    (confirm_event_delivery 70 11 ⟨1, "processed", 70, none, "consumer_a"⟩
        ⟨[samplePublishedEvent], [], []⟩).1.receipts.countP
      (fun r => r.event_id == (1 : Nat)) = 1 :=
  ((confirm_delivery_idempotent 70 71 11 12 ⟨1, "processed", 70, none, "consumer_a"⟩
      ⟨[samplePublishedEvent], [], []⟩ samplePublishedEvent rfl rfl rfl).1).2.2.1

/-- C5 counterexample: `confirm_event_delivery` transitions `deliver_status`
away from `"pending"` (to `"delivered"`) on a record whose `publish_status` is
still `"pending"` — the claimed invariant that such a transition only happens
under `publish_status = "published"` fails on the code at this input. -/
theorem confirm_moves_unpublished_to_delivered :
    samplePendingEvent.publish_status = "pending" ∧
    samplePendingEvent.deliver_status = "pending" ∧
    ((confirm_event_delivery 5 9 ⟨2, "processed", 5, none, "consumer_a"⟩
        ⟨[samplePendingEvent], [], []⟩).1.events.map
      (fun e => (e.publish_status, e.deliver_status)))
      = [("pending", "delivered")] := by
  refine ⟨rfl, rfl, rfl⟩

theorem resendFailUpdate_deliver_status (now : Int) (r : Option String)
    (e : CustomerEvent) : (resendFailUpdate now r e).deliver_status = e.deliver_status := by
  unfold resendFailUpdate
  dsimp only
  split <;> rfl

/-- C5 (amended): the resend sweep never changes `deliver_status`; event
creation (with or without an immediate publish attempt) leaves the new record
at `deliver_status = "pending"`; the redeliver sweep changes `deliver_status`
only on records that were selected, which requires
`publish_status = "published"` and `deliver_status = "pending"` at that
moment; but confirm-delivery updates the matched unreceipted record's
`deliver_status` (to `"delivered"` for received/processed, `"failed"`
otherwise) regardless of its `publish_status`. -/
theorem deliver_transition_discipline :
    (∀ (now : Int) (req : EventSweepRequest) (pub : Nat → PublishOutcome)
       (e : CustomerEvent),
       (resendMapFun now req pub e).deliver_status = e.deliver_status) ∧
    (∀ (now : Int) (fid cid conid : Nat) (name st : String)
       (publisher : Option PublishOutcome) (db : Database),
       ((create_customer_flow now fid cid conid name st publisher db).2).deliver_status
         = "pending") ∧
    (∀ (now : Int) (req : EventSweepRequest) (pub : Nat → PublishOutcome)
       (e : CustomerEvent),
       (redeliverMapFun now req pub e).deliver_status ≠ e.deliver_status →
       e.publish_status = "published" ∧ e.deliver_status = "pending") ∧
    (∀ (now : Int) (rid : Nat) (req : EventConfirmDeliveryRequest) (db : Database)
       (e0 : CustomerEvent),
       db.events.find? (fun e => e.event_id == req.event_id) = some e0 →
       db.receipts.find? (fun r => r.event_id == req.event_id) = none →
       (confirm_event_delivery now rid req db).1.events
         = updateFirstEvent req.event_id (confirmEventUpdate now req) db.events ∧
       (confirmEventUpdate now req e0).deliver_status
         = (if req.status == "received" || req.status == "processed"
            then "delivered" else "failed")) := by
  refine ⟨?_, ?_, ?_, ?_⟩
  · intro now req pub e
    unfold resendMapFun
    split
    · unfold resendLoopStep
      split
      · rfl
      · split
        · rfl
        · exact resendFailUpdate_deliver_status now _ e
    · rfl
  · intro now fid cid conid name st publisher db
    cases publisher with
    | none => rfl
    | some o => cases o <;> rfl
  · intro now req pub e hne
    by_cases hsel : redeliverSelects now req e = true
    · have h1 := (redeliverSelects_eq_true_iff now req e).mp hsel
      exact ⟨h1.2.1, h1.2.2.1⟩
    · exfalso
      apply hne
      unfold redeliverMapFun
      rw [if_neg hsel]
  · intro now rid req db e0 hfind hfresh
    constructor
    · unfold confirm_event_delivery
      rw [hfind, hfresh]
    · unfold confirmEventUpdate
      split <;> rfl

/-- Witness for the amended C5 at a concrete confirm call on the pending
record with id 2. -/
theorem deliver_transition_discipline_witness :
    (confirm_event_delivery 5 9 ⟨2, "processed", 5, none, "consumer_a"⟩
        ⟨[samplePendingEvent], [], []⟩).1.events
      = updateFirstEvent 2
          (confirmEventUpdate 5 ⟨2, "processed", 5, none, "consumer_a"⟩)
          [samplePendingEvent] :=
  (deliver_transition_discipline.2.2.2 5 9 ⟨2, "processed", 5, none, "consumer_a"⟩
    ⟨[samplePendingEvent], [], []⟩ samplePendingEvent rfl rfl).1

/-- C6 counterexample: a record created through `crud.create_customer_event`
with its default arguments has `publish_status = "published"` together with
`published_at = None`, so the claimed biconditional
(`published` ⟺ `published_at` set ∧ failure reason null) fails on it. -/
theorem create_event_defaults_violate_publish_invariant :
    (create_customer_event_with_defaults 1 0 1 ("customer_creation")
        ("POST: /customer/data") []).publish_status = "published" ∧
    (create_customer_event_with_defaults 1 0 1 ("customer_creation")
        ("POST: /customer/data") []).published_at = none ∧
    ¬ publishInvariant
      (create_customer_event_with_defaults 1 0 1 ("customer_creation")
        ("POST: /customer/data") []) := by
  refine ⟨rfl, rfl, ?_⟩
  decide

theorem resendSelects_pending (now : Int) (req : EventSweepRequest) (e : CustomerEvent)
    (h : resendSelects now req e = true) : e.publish_status = "pending" := by
  unfold resendSelects at h
  simp only [Bool.and_eq_true, beq_iff_eq] at h
  exact h.1.1.2

theorem publishInvariant_resendFailUpdate (now : Int) (s : String) (e : CustomerEvent)
    (hpend : e.publish_status = "pending") :
    publishInvariant (resendFailUpdate now (some s) e) := by
  obtain ⟨h1, h2, h3, h4⟩ := resendFailUpdate_fields now (some s) e
  unfold publishInvariant
  rw [h3, h4]
  constructor
  · intro hst
    exfalso
    by_cases hc : 10 ≤ e.publish_try_count + 1
    · rw [if_pos hc] at hst
      exact absurd hst (by decide)
    · rw [if_neg hc] at hst
      rw [hpend] at hst
      exact absurd hst (by decide)
  · rintro ⟨-, hnone⟩
    exact absurd hnone (by simp)

theorem redeliverLoopStep_publish_fields (now : Int) (req : EventSweepRequest)
    (pub : Nat → PublishOutcome) (e : CustomerEvent) :
    (redeliverLoopStep now req pub e).1.publish_status = e.publish_status ∧
    (redeliverLoopStep now req pub e).1.published_at = e.published_at ∧
    (redeliverLoopStep now req pub e).1.publish_failure_reason
      = e.publish_failure_reason := by
  unfold redeliverLoopStep
  split
  · exact ⟨rfl, rfl, rfl⟩
  · split
    · exact ⟨rfl, rfl, rfl⟩
    · refine ⟨?_, ?_, ?_⟩ <;> (unfold redeliverFailUpdate; dsimp only; split <;> rfl)

theorem confirmEventUpdate_publish_fields (now : Int)
    (req : EventConfirmDeliveryRequest) (e : CustomerEvent) :
    (confirmEventUpdate now req e).publish_status = e.publish_status ∧
    (confirmEventUpdate now req e).published_at = e.published_at ∧
    (confirmEventUpdate now req e).publish_failure_reason
      = e.publish_failure_reason := by
  unfold confirmEventUpdate
  split <;> exact ⟨rfl, rfl, rfl⟩

theorem mem_updateFirstEvent (eid : Nat) (f : CustomerEvent → CustomerEvent) :
    ∀ (l : List CustomerEvent) (x : CustomerEvent),
      x ∈ updateFirstEvent eid f l → x ∈ l ∨ ∃ y ∈ l, x = f y := by
  intro l
  induction l with
  | nil => intro x hx; exact absurd hx (by simp [updateFirstEvent])
  | cons e rest ih =>
    intro x hx
    have hup0 : updateFirstEvent eid f (e :: rest)
        = if e.event_id == eid then f e :: rest else e :: updateFirstEvent eid f rest := rfl
    rw [hup0] at hx
    by_cases hpe : (e.event_id == eid) = true
    · rw [if_pos hpe] at hx
      rcases List.mem_cons.mp hx with hx1 | hx2
      · exact Or.inr ⟨e, List.mem_cons_self e rest, hx1⟩
      · exact Or.inl (List.mem_cons_of_mem e hx2)
    · rw [if_neg hpe] at hx
      rcases List.mem_cons.mp hx with hx1 | hx2
      · exact Or.inl (hx1 ▸ List.mem_cons_self e rest)
      · rcases ih x hx2 with h | ⟨y, hy, hxy⟩
        · exact Or.inl (List.mem_cons_of_mem e h)
        · exact Or.inr ⟨y, List.mem_cons_of_mem e hy, hxy⟩

/-- C6 (amended): every record created the way the call sites do it (with
`publish_status = "pending"` and `published_at = None`) satisfies the
biconditional, and every mutating operation of the subsystem (resend sweep,
redeliver sweep, confirm-delivery, the customer-creation flow with any publish
outcome) preserves it / establishes it on the records it produces — but
`create_customer_event` invoked with its Python default arguments produces a
record that violates it (see the counterexample). -/
theorem publish_invariant_preservation :
    (∀ (fid : Nat) (now : Int) (cid : Nat) (ty src : String)
       (pl : List (String × String)) (md : Option (List (String × String)))
       (ptc : Nat) (plt : Option Int) (pfr : Option String) (cido : Option Nat),
       publishInvariant
         (create_customer_event fid now cid ty src pl md ("pending") none ptc plt pfr cido)) ∧
    (∀ (now : Int) (req : EventSweepRequest) (pub : Nat → PublishOutcome)
       (e : CustomerEvent), publishInvariant e →
       publishInvariant (resendMapFun now req pub e)) ∧
    (∀ (now : Int) (req : EventSweepRequest) (pub : Nat → PublishOutcome)
       (e : CustomerEvent), publishInvariant e →
       publishInvariant (redeliverMapFun now req pub e)) ∧
    (∀ (now : Int) (rid : Nat) (req : EventConfirmDeliveryRequest) (db : Database),
       (∀ e ∈ db.events, publishInvariant e) →
       ∀ e' ∈ (confirm_event_delivery now rid req db).1.events, publishInvariant e') ∧
    (∀ (now : Int) (fid cid conid : Nat) (name st : String)
       (publisher : Option PublishOutcome) (db : Database),
       publishInvariant ((create_customer_flow now fid cid conid name st publisher db).2)) := by
  refine ⟨?_, ?_, ?_, ?_, ?_⟩
  · intro fid now cid ty src pl md ptc plt pfr cido
    simp [publishInvariant, create_customer_event]
  · intro now req pub e he
    unfold resendMapFun
    by_cases hsel : resendSelects now req e = true
    · rw [if_pos hsel]
      have hpend := resendSelects_pending now req e hsel
      unfold resendLoopStep
      split
      · exact he
      · split
        · simp [publishInvariant, resendSuccessUpdate]
        · next ho =>
          cases hcase : pub e.event_id with
          | ok => exact absurd hcase ho
          | returnedFalse =>
            exact publishInvariant_resendFailUpdate now _ e hpend
          | raised msg =>
            exact publishInvariant_resendFailUpdate now _ e hpend
    · rw [if_neg hsel]
      exact he
  · intro now req pub e he
    unfold redeliverMapFun
    by_cases hsel : redeliverSelects now req e = true
    · rw [if_pos hsel]
      obtain ⟨f1, f2, f3⟩ := redeliverLoopStep_publish_fields now req pub e
      unfold publishInvariant at he ⊢
      rw [f1, f2, f3]
      exact he
    · rw [if_neg hsel]
      exact he
  · intro now rid req db hall e' he'
    cases hfind : db.events.find? (fun e => e.event_id == req.event_id) with
    | none =>
      have hc : confirm_event_delivery now rid req db = (db, ConfirmOutcome.notFound) := by
        unfold confirm_event_delivery
        rw [hfind]
      rw [hc] at he'
      exact hall e' he'
    | some ev =>
      cases hrc : db.receipts.find? (fun r => r.event_id == req.event_id) with
      | some r =>
        have hc : confirm_event_delivery now rid req db = (db, ConfirmOutcome.ok) := by
          unfold confirm_event_delivery
          rw [hfind, hrc]
        rw [hc] at he'
        exact hall e' he'
      | none =>
        have hc : (confirm_event_delivery now rid req db).1.events
            = updateFirstEvent req.event_id (confirmEventUpdate now req) db.events := by
          unfold confirm_event_delivery
          rw [hfind, hrc]
        rw [hc] at he'
        rcases mem_updateFirstEvent req.event_id (confirmEventUpdate now req)
            db.events e' he' with h | ⟨y, hy, hxy⟩
        · exact hall e' h
        · subst hxy
          obtain ⟨f1, f2, f3⟩ := confirmEventUpdate_publish_fields now req y
          unfold publishInvariant
          rw [f1, f2, f3]
          exact hall y hy
  · intro now fid cid conid name st publisher db
    cases publisher with
    | none => simp [publishInvariant, create_customer_flow, create_customer_event]
    | some o =>
      cases o <;> simp [publishInvariant, create_customer_flow, create_customer_event]

/-- Witness for the amended C6: preservation applied to a concrete failing
resend attempt on the pending record. -/
theorem publish_invariant_preservation_witness :
    publishInvariant
      (resendMapFun 100 ⟨7, none, none⟩ (fun _ => .returnedFalse) samplePendingEvent) :=
  publish_invariant_preservation.2.1 100 ⟨7, none, none⟩ (fun _ => .returnedFalse)
    samplePendingEvent (by decide)

end Fintegrate
